import Mathlib

/-!
Shallow embedding of the `subscription-manager` library core
(`src/subscription-manager.ts`) together with the repository's in-memory
test storage (`tests/subscription-manager.test.ts`).

Modelling choices, stated once:

* The record type `ISubscription` from `src/interfaces/subscription.interface.ts`
  is `Subscription α`: the two required fields `active` and `updatedAt`, plus a
  field `rest : α` standing for the tenant's opaque extension fields (the
  manager is generic over the record shape `T extends ISubscription`).
* The storage port `IStorage` is a stateful, fallible record of operations:
  each operation takes the port's private state and returns an
  `Except ε` result paired with the successor state.  `Promise` rejection is
  `Except.error`.
* Listener callbacks registered through `subscribe` are identified by `Nat`
  ids (distinct ids model distinct function references; JS `Set` compares
  listeners by reference identity).  What a listener does to the registry
  when invoked is supplied by an environment `env : Nat → List RegOp`; an
  empty list models a listener that does not touch the registry.
* `this.listeners` is a JS `Set`.  Per ECMA-262, a Set's backing data is an
  insertion-ordered list of slots in which `delete` blanks a slot (it does
  not shift later entries) and `add` appends, and `Set.prototype.forEach`
  walks the live slot list by index, re-reading the length each step, so
  entries appended during the walk are visited and entries blanked before
  being reached are skipped.  `List (Option Nat)` with `none` for a blanked
  slot embeds this exactly.  Because a listener that blanks and re-adds
  itself makes the real `forEach` diverge, the walk takes explicit fuel;
  theorems assume enough fuel for the runs they describe.
* `new Date().toISOString()` is a platform clock call; it is embedded as an
  explicit argument `now : String` to `setSubscription`, the current instant
  rendered as ISO-8601.
* Invocations of the configured `onChange` callback and of listeners are
  recorded in an event trace, in invocation order.
-/

namespace SubMgr

/-- The record shape from `src/interfaces/subscription.interface.ts`:
`active` and `updatedAt` are the two required fields; `rest` stands for the
tenant's additional fields, which the core must treat opaquely. -/
structure Subscription (α : Type) where
  active : Bool
  updatedAt : String
  rest : α
deriving DecidableEq, Repr

/-- The storage port `IStorage` from `src/interfaces/storage.interface.ts`:
three fallible, stateful operations keyed by a string.  `σ` is the port's
private state, `ε` the error type of a rejected promise. -/
structure IStorage (σ α ε : Type) where
  get : σ → String → Except ε (Option (Subscription α)) × σ
  set : σ → String → Subscription α → Except ε Unit × σ
  remove : σ → String → Except ε Unit × σ

/-- `ISubscriptionManagerConfig` from
`src/interfaces/subscription-manager.config.ts`: the storage port, the
storage key, and the optional change callback.  The callback may throw,
hence `Except ε Unit`. -/
structure ISubscriptionManagerConfig (σ α ε : Type) where
  storage : IStorage σ α ε
  storageKey : String
  onChange : Option (Option (Subscription α) → Except ε Unit)

/-- A registry mutation a listener can perform when invoked: calling
`subscribe` (add) or an unsubscribe closure (delete) from inside the
callback. -/
inductive RegOp where
  | addL : Nat → RegOp
  | removeL : Nat → RegOp
deriving DecidableEq, Repr

/-- ECMA-262 `Set.prototype.add` on the slot list: append unless an equal
entry is already present. -/
def setAdd (s : List (Option Nat)) (e : Nat) : List (Option Nat) :=
  if s.contains (some e) then s else s ++ [some e]

/-- ECMA-262 `Set.prototype.delete` on the slot list: blank the slot holding
the entry (no shifting of later slots). -/
def setDelete : List (Option Nat) → Nat → List (Option Nat)
  | [], _ => []
  | x :: xs, e => if x = some e then none :: xs else x :: setDelete xs e

/-- Apply one registry mutation. -/
def applyRegOp (s : List (Option Nat)) : RegOp → List (Option Nat)
  | .addL e => setAdd s e
  | .removeL e => setDelete s e

/-- Apply a listener's registry mutations in order. -/
def applyRegOps (s : List (Option Nat)) (ops : List RegOp) : List (Option Nat) :=
  ops.foldl applyRegOp s

/-- One observable callback invocation made by `notify`. -/
inductive Event (α : Type) where
  | onChangeCall : Option (Subscription α) → Event α
  | listenerCall : Nat → Option (Subscription α) → Event α
deriving DecidableEq, Repr

/-- ECMA-262 `Set.prototype.forEach` over the live slot list, from slot
index `i`: the length is re-read each step, blanked slots are skipped, and
each visited listener's registry mutations are applied before moving on.
`fuel` bounds the walk because the real iteration diverges when a listener
keeps re-appending itself. -/
def forEachGo (env : Nat → List RegOp) (v : Option (Subscription α)) :
    Nat → List (Option Nat) → Nat → List (Event α) × List (Option Nat)
  | 0, s, _ => ([], s)
  | fuel + 1, s, i =>
    if h : i < s.length then
      match s.get ⟨i, h⟩ with
      | none => forEachGo env v fuel s (i + 1)
      | some e =>
        let s' := applyRegOps s (env e)
        let (evs, s'') := forEachGo env v fuel s' (i + 1)
        (Event.listenerCall e v :: evs, s'')
    else ([], s)

/-- Manager state: the port's private state and the `listeners` Set's slot
list. -/
structure MgrState (σ : Type) where
  store : σ
  listeners : List (Option Nat)
deriving Repr

/-- `SubscriptionManager.notify`: invoke the optional `onChange` callback
with the new value, then `listeners.forEach(fn => fn(value))`.  A throw from
`onChange` propagates before any listener runs.  Returns the operation
result, the trace of callback invocations, and the successor state. -/
def notify (cfg : ISubscriptionManagerConfig σ α ε) (env : Nat → List RegOp)
    (fuel : Nat) (st : MgrState σ) (v : Option (Subscription α)) :
    Except ε Unit × List (Event α) × MgrState σ :=
  match cfg.onChange with
  | some cb =>
    match cb v with
    | .error e => (.error e, [Event.onChangeCall v], st)
    | .ok _ =>
      let (evs, ls) := forEachGo env v fuel st.listeners 0
      (.ok (), Event.onChangeCall v :: evs, { st with listeners := ls })
  | none =>
    let (evs, ls) := forEachGo env v fuel st.listeners 0
    (.ok (), evs, { st with listeners := ls })

/-- `SubscriptionManager.getSubscription`: return
`this.config.storage.get(this.config.storageKey)` unchanged.  No callback is
invoked, hence the empty trace. -/
def getSubscription (cfg : ISubscriptionManagerConfig σ α ε) (st : MgrState σ) :
    Except ε (Option (Subscription α)) × List (Event α) × MgrState σ :=
  let (r, s') := cfg.storage.get st.store cfg.storageKey
  (r, [], { st with store := s' })

/-- `SubscriptionManager.isActive`: `sub?.active ?? false` on the result of
`getSubscription`; a read failure propagates. -/
def isActive (cfg : ISubscriptionManagerConfig σ α ε) (st : MgrState σ) :
    Except ε Bool × List (Event α) × MgrState σ :=
  let (r, evs, st') := getSubscription cfg st
  match r with
  | .error e => (.error e, evs, st')
  | .ok none => (.ok false, evs, st')
  | .ok (some sub) => (.ok sub.active, evs, st')

/-- The record `setSubscription` builds before persisting:
`{ ...subscription, updatedAt: subscription.updatedAt || new Date().toISOString() }`.
The only falsy value of a JS string is the empty string. -/
def toStoreOf (sub : Subscription α) (now : String) : Subscription α :=
  { sub with updatedAt := if sub.updatedAt = "" then now else sub.updatedAt }

/-- `SubscriptionManager.setSubscription`: build `toStore`, await
`storage.set`, and only on success call `notify(toStore)`.  A write failure
propagates unchanged with no callback invoked. -/
def setSubscription (cfg : ISubscriptionManagerConfig σ α ε)
    (env : Nat → List RegOp) (fuel : Nat) (now : String) (st : MgrState σ)
    (sub : Subscription α) : Except ε Unit × List (Event α) × MgrState σ :=
  let toStore := toStoreOf sub now
  let (r, s') := cfg.storage.set st.store cfg.storageKey toStore
  let st' := { st with store := s' }
  match r with
  | .error e => (.error e, [], st')
  | .ok _ => notify cfg env fuel st' (some toStore)

/-- `SubscriptionManager.clearSubscription`: await `storage.remove`, and only
on success call `notify(null)`. -/
def clearSubscription (cfg : ISubscriptionManagerConfig σ α ε)
    (env : Nat → List RegOp) (fuel : Nat) (st : MgrState σ) :
    Except ε Unit × List (Event α) × MgrState σ :=
  let (r, s') := cfg.storage.remove st.store cfg.storageKey
  let st' := { st with store := s' }
  match r with
  | .error e => (.error e, [], st')
  | .ok _ => notify cfg env fuel st' none

/-- `SubscriptionManager.subscribe`: `this.listeners.add(listener)`. -/
def subscribe (st : MgrState σ) (l : Nat) : MgrState σ :=
  { st with listeners := setAdd st.listeners l }

/-- The closure returned by `subscribe`: `() => { this.listeners.delete(listener) }`.
Applying it again replays the same captured `listener`. -/
def unsubscribe (st : MgrState σ) (l : Nat) : MgrState σ :=
  { st with listeners := setDelete st.listeners l }

/-- The set of registered listeners as observed through the Set API: the
non-blank slots in insertion order. -/
def registered (s : List (Option Nat)) : List Nat :=
  s.filterMap id

/-- The repository's in-memory test storage (`createMockStorage` in
`tests/subscription-manager.test.ts`): a `Map` from keys to records, whose
`get` returns `store.get(key) ?? null`, `set` overwrites, `remove` deletes;
none of the operations ever rejects.  The `Map` is an association list. -/
def memStorage (α ε : Type) : IStorage (List (String × Subscription α)) α ε where
  get := fun s k => (.ok (s.lookup k), s)
  set := fun s k v => (.ok (), (k, v) :: s.filter (fun p => p.1 ≠ k))
  remove := fun s k => (.ok (), s.filter (fun p => p.1 ≠ k))

/-- A storage port every operation of which rejects with a fixed error,
used to exercise the failure paths of the manager. -/
def failStorage (α : Type) (e : ε) : IStorage Unit α ε where
  get := fun s _ => (.error e, s)
  set := fun s _ _ => (.error e, s)
  remove := fun s _ => (.error e, s)

/-- Modelled from the spec: "a non-empty, valid ISO-8601 string".  The
source never validates timestamps (only `Date.prototype.toISOString`
produces them), so validity exists only as a spec-level notion; this checker
accepts exactly the shape `toISOString` emits,
`YYYY-MM-DDTHH:MM:SS.mmmZ` with in-range month, day, hour, minute and
second fields. -/
def isValidIso8601 (s : String) : Bool :=
  match s.toList with
  | [y1, y2, y3, y4, '-', mo1, mo2, '-', d1, d2, 'T',
     h1, h2, ':', mi1, mi2, ':', s1, s2, '.', f1, f2, f3, 'Z'] =>
    let n2 := fun (a b : Char) => (a.toNat - 48) * 10 + (b.toNat - 48)
    (y1.isDigit && y2.isDigit && y3.isDigit && y4.isDigit &&
     mo1.isDigit && mo2.isDigit && d1.isDigit && d2.isDigit &&
     h1.isDigit && h2.isDigit && mi1.isDigit && mi2.isDigit &&
     s1.isDigit && s2.isDigit && f1.isDigit && f2.isDigit && f3.isDigit) &&
    (1 ≤ n2 mo1 mo2 && n2 mo1 mo2 ≤ 12) &&
    (1 ≤ n2 d1 d2 && n2 d1 d2 ≤ 31) &&
    (n2 h1 h2 ≤ 23) && (n2 mi1 mi2 ≤ 59) && (n2 s1 s2 ≤ 59)
  | _ => false

/-! ### Registry lemmas -/

theorem mem_registered {s : List (Option Nat)} {x : Nat} :
    x ∈ registered s ↔ some x ∈ s := by
  simp [registered, List.mem_filterMap]

theorem registered_setDelete (s : List (Option Nat)) (l : Nat) :
    registered (setDelete s l) = (registered s).erase l := by
  induction s with
  | nil => rfl
  | cons x xs ih =>
    cases x with
    | none => simpa [setDelete, registered] using ih
    | some y =>
      by_cases hy : y = l
      · subst hy
        simp [setDelete, registered]
      · have hxy : (some y : Option Nat) ≠ some l := by simp [hy]
        simp only [setDelete, if_neg hxy, registered, List.filterMap_cons]
        simp only [id, registered] at ih ⊢
        rw [List.erase_cons_tail]
        · rw [ih]
        · simp [hy]

theorem setDelete_of_not_mem {s : List (Option Nat)} {l : Nat}
    (h : some l ∉ s) : setDelete s l = s := by
  induction s with
  | nil => rfl
  | cons x xs ih =>
    simp only [List.mem_cons, not_or] at h
    simp [setDelete, Ne.symm h.1, ih h.2]

theorem not_mem_setDelete {s : List (Option Nat)} {l : Nat}
    (h : (registered s).Nodup) : some l ∉ setDelete s l := by
  intro hmem
  have : l ∈ registered (setDelete s l) := mem_registered.mpr hmem
  rw [registered_setDelete] at this
  exact ((h.mem_erase_iff).mp this).1 rfl

theorem setDelete_idem {s : List (Option Nat)} {l : Nat}
    (h : (registered s).Nodup) :
    setDelete (setDelete s l) l = setDelete s l :=
  setDelete_of_not_mem (not_mem_setDelete h)

theorem registered_setAdd (s : List (Option Nat)) (e : Nat) :
    registered (setAdd s e) =
      if some e ∈ s then registered s else registered s ++ [e] := by
  by_cases h : some e ∈ s
  · simp [setAdd, registered, h]
  · simp [setAdd, registered, h]

theorem nodup_registered_setAdd {s : List (Option Nat)} (e : Nat)
    (h : (registered s).Nodup) : (registered (setAdd s e)).Nodup := by
  rw [registered_setAdd]
  by_cases hm : some e ∈ s
  · simpa [hm] using h
  · have he : e ∉ registered s := fun hc => hm (mem_registered.mp hc)
    simp only [hm, if_neg, ite_false]
    simpa [List.nodup_append] using ⟨h, he⟩

theorem setAdd_setAdd (s : List (Option Nat)) (e : Nat) :
    setAdd (setAdd s e) e = setAdd s e := by
  by_cases h : some e ∈ s
  · simp [setAdd, h]
  · simp [setAdd, h]

/-! ### The pure notification pass

When no listener reachable in the pass mutates the registry, the live-Set
walk visits exactly the registered listeners, in slot order, once each, and
leaves the registry unchanged. -/

theorem forEachGo_pure {α : Type} (env : Nat → List RegOp)
    (v : Option (Subscription α)) (s : List (Option Nat))
    (hpure : ∀ e, some e ∈ s → env e = []) :
    ∀ fuel i, s.length ≤ i + fuel →
      forEachGo env v fuel s i =
        (((s.drop i).filterMap id).map (fun e => Event.listenerCall e v), s) := by
  intro fuel
  induction fuel with
  | zero =>
    intro i hi
    simp only [Nat.add_zero] at hi
    simp [forEachGo, List.drop_eq_nil_of_le hi]
  | succ n ih =>
    intro i hi
    by_cases h : i < s.length
    · have hdrop : s.drop i = s[i] :: s.drop (i + 1) := List.drop_eq_getElem_cons h
      have hrec := ih (i + 1) (by omega)
      cases hx : s.get ⟨i, h⟩ with
      | none =>
        have : s[i] = none := hx
        simp [forEachGo, h, hx, hrec, hdrop, this]
      | some e =>
        have hmem : some e ∈ s := hx ▸ List.get_mem s i h
        have : s[i] = some e := hx
        simp [forEachGo, h, hx, hrec, hdrop, this, applyRegOps, hpure e hmem]
    · have hlen : s.length ≤ i := Nat.le_of_not_lt h
      simp [forEachGo, h, List.drop_eq_nil_of_le hlen]

theorem notify_pure_none {σ α ε : Type}
    (cfg : ISubscriptionManagerConfig σ α ε) (env : Nat → List RegOp)
    (fuel : Nat) (st : MgrState σ) (v : Option (Subscription α))
    (hcb : cfg.onChange = none)
    (hpure : ∀ e, some e ∈ st.listeners → env e = [])
    (hfuel : st.listeners.length ≤ fuel) :
    notify cfg env fuel st v =
      (.ok (), (registered st.listeners).map (fun e => Event.listenerCall e v), st) := by
  have h := forEachGo_pure env v st.listeners hpure fuel 0 (by omega)
  simp [notify, hcb, h, registered]

theorem notify_pure_some {σ α ε : Type}
    (cfg : ISubscriptionManagerConfig σ α ε) (env : Nat → List RegOp)
    (fuel : Nat) (st : MgrState σ) (v : Option (Subscription α))
    (cb : Option (Subscription α) → Except ε Unit)
    (hcb : cfg.onChange = some cb) (hok : cb v = .ok ())
    (hpure : ∀ e, some e ∈ st.listeners → env e = [])
    (hfuel : st.listeners.length ≤ fuel) :
    notify cfg env fuel st v =
      (.ok (), Event.onChangeCall v ::
        (registered st.listeners).map (fun e => Event.listenerCall e v), st) := by
  have h := forEachGo_pure env v st.listeners hpure fuel 0 (by omega)
  simp [notify, hcb, hok, h, registered]

theorem length_setDelete (s : List (Option Nat)) (l : Nat) :
    (setDelete s l).length = s.length := by
  induction s with
  | nil => rfl
  | cons x xs ih =>
    by_cases h : x = some l <;> simp [setDelete, h, ih]

theorem length_setAdd_le (s : List (Option Nat)) (e : Nat) :
    (setAdd s e).length ≤ s.length + 1 := by
  by_cases h : some e ∈ s <;> simp [setAdd, h]

theorem isValidIso8601_ne_empty {s : String} (h : isValidIso8601 s = true) :
    s ≠ "" := by
  intro hs
  subst hs
  exact absurd h (by decide)

theorem count_listenerCall_map {α : Type} [DecidableEq α] (xs : List Nat)
    (v : Option (Subscription α)) (l : Nat) :
    ((xs.map (fun e => Event.listenerCall e v)).count (Event.listenerCall l v)) =
      xs.count l := by
  have hinj : Function.Injective (fun e => Event.listenerCall (α := α) e v) := by
    intro a b hab
    simpa [Event.listenerCall.injEq] using hab
  exact List.count_map_of_injective xs _ hinj l

theorem setSubscription_events_none {σ α ε : Type}
    (cfg : ISubscriptionManagerConfig σ α ε) (env : Nat → List RegOp)
    (fuel : Nat) (now : String) (st : MgrState σ) (sub : Subscription α) (s₂ : σ)
    (h : cfg.storage.set st.store cfg.storageKey (toStoreOf sub now) = (.ok (), s₂))
    (hcb : cfg.onChange = none)
    (hpure : ∀ e, some e ∈ st.listeners → env e = [])
    (hfuel : st.listeners.length ≤ fuel) :
    (setSubscription cfg env fuel now st sub).2.1 =
      (registered st.listeners).map
        (fun l => Event.listenerCall l (some (toStoreOf sub now))) := by
  have hn := notify_pure_none cfg env fuel { st with store := s₂ }
    (some (toStoreOf sub now)) hcb hpure hfuel
  simp [setSubscription, h, hn]

theorem setSubscription_events_some {σ α ε : Type}
    (cfg : ISubscriptionManagerConfig σ α ε) (env : Nat → List RegOp)
    (fuel : Nat) (now : String) (st : MgrState σ) (sub : Subscription α) (s₂ : σ)
    (cb : Option (Subscription α) → Except ε Unit)
    (h : cfg.storage.set st.store cfg.storageKey (toStoreOf sub now) = (.ok (), s₂))
    (hcb : cfg.onChange = some cb) (hok : cb (some (toStoreOf sub now)) = .ok ())
    (hpure : ∀ e, some e ∈ st.listeners → env e = [])
    (hfuel : st.listeners.length ≤ fuel) :
    (setSubscription cfg env fuel now st sub).2.1 =
      Event.onChangeCall (some (toStoreOf sub now)) ::
        (registered st.listeners).map
          (fun l => Event.listenerCall l (some (toStoreOf sub now))) := by
  have hn := notify_pure_some cfg env fuel { st with store := s₂ }
    (some (toStoreOf sub now)) cb hcb hok hpure hfuel
  simp [setSubscription, h, hn]

theorem clearSubscription_events_none {σ α ε : Type}
    (cfg : ISubscriptionManagerConfig σ α ε) (env : Nat → List RegOp)
    (fuel : Nat) (st : MgrState σ) (s₂ : σ)
    (h : cfg.storage.remove st.store cfg.storageKey = (.ok (), s₂))
    (hcb : cfg.onChange = none)
    (hpure : ∀ e, some e ∈ st.listeners → env e = [])
    (hfuel : st.listeners.length ≤ fuel) :
    (clearSubscription cfg env fuel st).2.1 =
      (registered st.listeners).map (fun l => Event.listenerCall l none) := by
  have hn := notify_pure_none cfg env fuel { st with store := s₂ } none hcb hpure hfuel
  simp [clearSubscription, h, hn]

theorem clearSubscription_events_some {σ α ε : Type}
    (cfg : ISubscriptionManagerConfig σ α ε) (env : Nat → List RegOp)
    (fuel : Nat) (st : MgrState σ) (s₂ : σ)
    (cb : Option (Subscription α) → Except ε Unit)
    (h : cfg.storage.remove st.store cfg.storageKey = (.ok (), s₂))
    (hcb : cfg.onChange = some cb) (hok : cb none = .ok ())
    (hpure : ∀ e, some e ∈ st.listeners → env e = [])
    (hfuel : st.listeners.length ≤ fuel) :
    (clearSubscription cfg env fuel st).2.1 =
      Event.onChangeCall none ::
        (registered st.listeners).map (fun l => Event.listenerCall l none) := by
  have hn := notify_pure_some cfg env fuel { st with store := s₂ } none cb hcb hok hpure hfuel
  simp [clearSubscription, h, hn]

theorem lookup_filter_self {α : Type} (s : List (String × Subscription α)) (k : String) :
    (s.filter (fun p => p.1 ≠ k)).lookup k = none := by
  induction s with
  | nil => rfl
  | cons p ps ih =>
    obtain ⟨a, b⟩ := p
    by_cases h : a = k
    · simpa [List.filter_cons, h] using ih
    · have hbk : (k == a) = false := by
        simp [Ne.symm h]
      simp [List.filter_cons, h, List.lookup, hbk, ih]
      exact fun a b _ hak hka => hak hka.symm

/-! ### Claims -/

/-- C1, counterexample: the claim says a listener registered during a
notification pass is not invoked in that same pass.  In the code the pass is
`this.listeners.forEach(...)` over the live Set, so with listener 1
registered and listener 2 absent, a successful `setSubscription` during
which listener 1 subscribes listener 2 invokes listener 2 in the very same
pass. -/
theorem C1_counterexample :
    2 ∉ registered [some 1] ∧
    (setSubscription
        { storage := memStorage Unit String, storageKey := "k", onChange := none }
        (fun e => if e = 1 then [RegOp.addL 2] else []) 5 "now"
        { store := [], listeners := [some 1] }
        { active := true, updatedAt := "", rest := () }).2.1 =
      [Event.listenerCall 1 (some { active := true, updatedAt := "now", rest := () }),
       Event.listenerCall 2 (some { active := true, updatedAt := "now", rest := () })] := by
  constructor
  · decide
  · rfl

/-- C1 (amended): the manager iterates the live listener Set, not a
snapshot.  A listener unregistered during the pass before the iteration
reaches it is not invoked in that pass, but a listener registered during the
pass is invoked in that same pass.  Concretely, for a successful
`setSubscription`: if the sole registered listener `a` subscribes a fresh
listener `b` when invoked, the pass invokes both `a` and `b`; if the first
of the two registered listeners `a`, `b` unsubscribes `b` when invoked, the
pass invokes only `a`. -/
theorem C1_live_set_iteration {α ε : Type} (a b : Nat) (h : a ≠ b) (n : Nat)
    (k now : String) (sub : Subscription α) :
    (b ∉ registered [some a] ∧
      (setSubscription
          { storage := memStorage α ε, storageKey := k, onChange := none }
          (fun e => if e = a then [RegOp.addL b] else []) (n + 3) now
          { store := [], listeners := [some a] } sub).2.1 =
        [Event.listenerCall a (some (toStoreOf sub now)),
         Event.listenerCall b (some (toStoreOf sub now))]) ∧
    (b ∈ registered [some a, some b] ∧
      (setSubscription
          { storage := memStorage α ε, storageKey := k, onChange := none }
          (fun e => if e = a then [RegOp.removeL b] else []) (n + 3) now
          { store := [], listeners := [some a, some b] } sub).2.1 =
        [Event.listenerCall a (some (toStoreOf sub now))]) := by
  have hba : b ≠ a := h.symm
  refine ⟨⟨?_, ?_⟩, ?_, ?_⟩
  · simp [registered, hba]
  · simp [setSubscription, memStorage, notify, forEachGo, applyRegOps, applyRegOp,
      setAdd, h, hba]
  · simp [registered]
  · simp [setSubscription, memStorage, notify, forEachGo, applyRegOps, applyRegOp,
      setDelete, h, hba]

/-- C1, witness for the amended theorem at a concrete input. -/
theorem C1_live_set_iteration_witness :
    (2 ∉ registered [some 1] ∧
      (setSubscription
          { storage := memStorage Unit Unit, storageKey := "k", onChange := none }
          (fun e => if e = 1 then [RegOp.addL 2] else []) (0 + 3) "t"
          { store := [], listeners := [some 1] }
          { active := true, updatedAt := "", rest := () }).2.1 =
        [Event.listenerCall 1 (some (toStoreOf { active := true, updatedAt := "", rest := () } "t")),
         Event.listenerCall 2 (some (toStoreOf { active := true, updatedAt := "", rest := () } "t"))]) ∧
    (2 ∈ registered [some 1, some 2] ∧
      (setSubscription
          { storage := memStorage Unit Unit, storageKey := "k", onChange := none }
          (fun e => if e = 1 then [RegOp.removeL 2] else []) (0 + 3) "t"
          { store := [], listeners := [some 1, some 2] }
          { active := true, updatedAt := "", rest := () }).2.1 =
        [Event.listenerCall 1 (some (toStoreOf { active := true, updatedAt := "", rest := () } "t"))]) :=
  C1_live_set_iteration 1 2 (by decide) 0 "k" "t" _

/-- C2, counterexample: the claim says that after any successful
`setSubscription` the stored `updatedAt` is a valid ISO-8601 string even
when the caller supplied a non-empty `updatedAt`.  The code stores a
non-empty caller value verbatim without validation, so storing
`updatedAt = "garbage"` succeeds and the stored timestamp is not valid
ISO-8601. -/
theorem C2_counterexample :
    (setSubscription
        { storage := memStorage Unit String, storageKey := "k", onChange := none }
        (fun _ => []) 1 "2025-01-01T00:00:00.000Z"
        { store := [], listeners := [] }
        { active := true, updatedAt := "garbage", rest := () }).1 = .ok () ∧
    (getSubscription
        { storage := memStorage Unit String, storageKey := "k", onChange := none }
        (setSubscription
            { storage := memStorage Unit String, storageKey := "k", onChange := none }
            (fun _ => []) 1 "2025-01-01T00:00:00.000Z"
            { store := [], listeners := [] }
            { active := true, updatedAt := "garbage", rest := () }).2.2).1 =
      .ok (some { active := true, updatedAt := "garbage", rest := () }) ∧
    isValidIso8601 "garbage" = false := by
  refine ⟨rfl, rfl, by decide⟩

/-- C2 (amended): after a successful `setSubscription` against the
in-memory storage, the stored `updatedAt` is non-empty provided the clock
renders a valid ISO-8601 instant; it is that valid ISO-8601 instant when the
caller's `updatedAt` was empty (falsy); and a non-empty caller-supplied
`updatedAt` is stored verbatim, valid or not — the code never validates
it. -/
theorem C2_updatedAt_invariant {α ε : Type} (k now : String) (env : Nat → List RegOp)
    (fuel : Nat) (st : MgrState (List (String × Subscription α)))
    (sub : Subscription α) (hnow : isValidIso8601 now = true) :
    (setSubscription ((⟨memStorage α ε, k, none⟩ :
        ISubscriptionManagerConfig (List (String × Subscription α)) α ε))
        env fuel now st sub).1 = .ok () ∧
    (getSubscription ((⟨memStorage α ε, k, none⟩ :
        ISubscriptionManagerConfig (List (String × Subscription α)) α ε))
        (setSubscription ((⟨memStorage α ε, k, none⟩ :
            ISubscriptionManagerConfig (List (String × Subscription α)) α ε))
            env fuel now st sub).2.2).1 = .ok (some (toStoreOf sub now)) ∧
    (toStoreOf sub now).updatedAt ≠ "" ∧
    (sub.updatedAt = "" → isValidIso8601 (toStoreOf sub now).updatedAt = true) ∧
    (sub.updatedAt ≠ "" → (toStoreOf sub now).updatedAt = sub.updatedAt) := by
  refine ⟨?_, ?_, ?_, ?_, ?_⟩
  · simp [setSubscription, memStorage, notify]
  · simp [setSubscription, memStorage, notify, getSubscription]
  · by_cases h : sub.updatedAt = ""
    · simpa [toStoreOf, h] using isValidIso8601_ne_empty hnow
    · simp [toStoreOf, h]
  · intro h
    simpa [toStoreOf, h] using hnow
  · intro h
    simp [toStoreOf, h]

/-- C2, witness for the amended theorem at a concrete input. -/
theorem C2_updatedAt_invariant_witness :
    (setSubscription ((⟨memStorage Unit Unit, "k", none⟩ :
        ISubscriptionManagerConfig (List (String × Subscription Unit)) Unit Unit))
        (fun _ => []) 1 "2025-01-01T00:00:00.000Z"
        { store := [], listeners := [] }
        { active := true, updatedAt := "", rest := () }).1 = .ok () ∧
    (getSubscription ((⟨memStorage Unit Unit, "k", none⟩ :
        ISubscriptionManagerConfig (List (String × Subscription Unit)) Unit Unit))
        (setSubscription ((⟨memStorage Unit Unit, "k", none⟩ :
            ISubscriptionManagerConfig (List (String × Subscription Unit)) Unit Unit))
            (fun _ => []) 1 "2025-01-01T00:00:00.000Z"
            { store := [], listeners := [] }
            { active := true, updatedAt := "", rest := () }).2.2).1 =
      .ok (some (toStoreOf { active := true, updatedAt := "", rest := () }
            "2025-01-01T00:00:00.000Z")) ∧
    (toStoreOf ({ active := true, updatedAt := "", rest := () } : Subscription Unit)
        "2025-01-01T00:00:00.000Z").updatedAt ≠ "" ∧
    ((({ active := true, updatedAt := "", rest := () } : Subscription Unit)).updatedAt = "" →
      isValidIso8601 (toStoreOf ({ active := true, updatedAt := "", rest := () } : Subscription Unit)
        "2025-01-01T00:00:00.000Z").updatedAt = true) ∧
    ((({ active := true, updatedAt := "", rest := () } : Subscription Unit)).updatedAt ≠ "" →
      (toStoreOf ({ active := true, updatedAt := "", rest := () } : Subscription Unit)
        "2025-01-01T00:00:00.000Z").updatedAt =
        (({ active := true, updatedAt := "", rest := () } : Subscription Unit)).updatedAt) :=
  C2_updatedAt_invariant "k" "2025-01-01T00:00:00.000Z" (fun _ => []) 1
    { store := [], listeners := [] }
    { active := true, updatedAt := "", rest := () } (by decide)

/-- C3, counterexample: the claim says setSubscription fails exactly when
the underlying `storage.set` fails.  With the never-failing in-memory
storage and an `onChange` callback that throws, the port write succeeds yet
`setSubscription` rejects with the callback's error, so the "exactly when"
is false. -/
theorem C3_counterexample :
    ((memStorage Unit String).set [] "k"
        (toStoreOf { active := true, updatedAt := "x", rest := () } "t")).1 = .ok () ∧
    (setSubscription
        (⟨memStorage Unit String, "k", some (fun _ => .error "cb-boom")⟩ :
          ISubscriptionManagerConfig (List (String × Subscription Unit)) Unit String)
        (fun _ => []) 1 "t" { store := [], listeners := [] }
        { active := true, updatedAt := "x", rest := () }).1 = .error "cb-boom" :=
  ⟨rfl, rfl⟩

/-- C3 (amended): `getSubscription` surfaces the port's `get` outcome (value
or error) unchanged with no notification; `setSubscription` and
`clearSubscription` surface a port write/remove failure unchanged and invoke
neither the `onChange` callback nor any listener in that case; after a
confirmed write/remove the operation succeeds when no `onChange` callback is
configured, and otherwise its outcome is exactly the callback's outcome — so
the operation can also fail, with the callback's error, when the port call
succeeded but the callback threw. -/
theorem C3_error_propagation {σ α ε : Type}
    (cfg : ISubscriptionManagerConfig σ α ε) (env : Nat → List RegOp)
    (fuel : Nat) (now : String) (st : MgrState σ) (sub : Subscription α) :
    ((getSubscription cfg st).1 = (cfg.storage.get st.store cfg.storageKey).1 ∧
     (getSubscription cfg st).2.1 = []) ∧
    (∀ e s₂, cfg.storage.set st.store cfg.storageKey (toStoreOf sub now) = (.error e, s₂) →
      setSubscription cfg env fuel now st sub = (.error e, [], { st with store := s₂ })) ∧
    (∀ s₂, cfg.storage.set st.store cfg.storageKey (toStoreOf sub now) = (.ok (), s₂) →
      cfg.onChange = none → (setSubscription cfg env fuel now st sub).1 = .ok ()) ∧
    (∀ s₂ cb, cfg.storage.set st.store cfg.storageKey (toStoreOf sub now) = (.ok (), s₂) →
      cfg.onChange = some cb →
      (setSubscription cfg env fuel now st sub).1 = cb (some (toStoreOf sub now))) ∧
    (∀ e s₂, cfg.storage.remove st.store cfg.storageKey = (.error e, s₂) →
      clearSubscription cfg env fuel st = (.error e, [], { st with store := s₂ })) ∧
    (∀ s₂, cfg.storage.remove st.store cfg.storageKey = (.ok (), s₂) →
      cfg.onChange = none → (clearSubscription cfg env fuel st).1 = .ok ()) ∧
    (∀ s₂ cb, cfg.storage.remove st.store cfg.storageKey = (.ok (), s₂) →
      cfg.onChange = some cb →
      (clearSubscription cfg env fuel st).1 = cb none) := by
  refine ⟨⟨rfl, rfl⟩, ?_, ?_, ?_, ?_, ?_, ?_⟩
  · intro e s₂ h
    simp [setSubscription, h]
  · intro s₂ h hcb
    simp [setSubscription, h, notify, hcb]
  · intro s₂ cb h hcb
    cases hv : cb (some (toStoreOf sub now)) with
    | error e => simp [setSubscription, h, notify, hcb, hv]
    | ok u => cases u; simp [setSubscription, h, notify, hcb, hv]
  · intro e s₂ h
    simp [clearSubscription, h]
  · intro s₂ h hcb
    simp [clearSubscription, h, notify, hcb]
  · intro s₂ cb h hcb
    cases hv : cb none with
    | error e => simp [clearSubscription, h, notify, hcb, hv]
    | ok u => cases u; simp [clearSubscription, h, notify, hcb, hv]

/-- C3, witness: against the always-failing port, `setSubscription`
surfaces the port's error with no notification. -/
theorem C3_error_propagation_witness :
    setSubscription
        (⟨failStorage Unit "io", "k", none⟩ :
          ISubscriptionManagerConfig Unit Unit String)
        (fun _ => []) 1 "t" { store := (), listeners := [] }
        { active := true, updatedAt := "x", rest := () } =
      (.error "io", [], { store := (), listeners := [] }) :=
  (C3_error_propagation
      (⟨failStorage Unit "io", "k", none⟩ :
        ISubscriptionManagerConfig Unit Unit String)
      (fun _ => []) 1 "t" { store := (), listeners := [] }
      { active := true, updatedAt := "x", rest := () }).2.1 "io" () rfl

/-- C4: for every record passed to `setSubscription` against the in-memory
storage, the call succeeds and a subsequent `getSubscription` observes the
persisted record; its `updatedAt` is the injected current ISO instant when
the caller's `updatedAt` was empty (falsy), and is exactly the caller's
value when it was non-empty. -/
theorem C4_updatedAt_policy {α ε : Type} (k now : String) (env : Nat → List RegOp)
    (fuel : Nat) (st : MgrState (List (String × Subscription α)))
    (sub : Subscription α) :
    (setSubscription ((⟨memStorage α ε, k, none⟩ :
        ISubscriptionManagerConfig (List (String × Subscription α)) α ε))
        env fuel now st sub).1 = .ok () ∧
    (getSubscription ((⟨memStorage α ε, k, none⟩ :
        ISubscriptionManagerConfig (List (String × Subscription α)) α ε))
        (setSubscription ((⟨memStorage α ε, k, none⟩ :
            ISubscriptionManagerConfig (List (String × Subscription α)) α ε))
            env fuel now st sub).2.2).1 = .ok (some (toStoreOf sub now)) ∧
    (sub.updatedAt = "" → (toStoreOf sub now).updatedAt = now) ∧
    (sub.updatedAt ≠ "" → (toStoreOf sub now).updatedAt = sub.updatedAt) := by
  refine ⟨?_, ?_, ?_, ?_⟩
  · simp [setSubscription, memStorage, notify]
  · simp [setSubscription, memStorage, notify, getSubscription]
  · intro h
    simp [toStoreOf, h]
  · intro h
    simp [toStoreOf, h]

/-- C4, witness: an empty `updatedAt` is replaced by the clock instant and a
non-empty one is kept verbatim, at concrete inputs. -/
theorem C4_updatedAt_policy_witness :
    (toStoreOf ({ active := true, updatedAt := "", rest := () } : Subscription Unit)
        "2025-06-01T12:00:00.000Z").updatedAt = "2025-06-01T12:00:00.000Z" ∧
    (toStoreOf ({ active := true, updatedAt := "2024-01-01T00:00:00.000Z", rest := () } :
        Subscription Unit) "2025-06-01T12:00:00.000Z").updatedAt =
      "2024-01-01T00:00:00.000Z" :=
  ⟨(C4_updatedAt_policy (ε := Unit) "k" "2025-06-01T12:00:00.000Z" (fun _ => []) 1
      { store := [], listeners := [] } _).2.2.1 rfl,
   (C4_updatedAt_policy (ε := Unit) "k" "2025-06-01T12:00:00.000Z" (fun _ => []) 1
      { store := [], listeners := [] } _).2.2.2 (by decide)⟩

/-- C9: `isActive` performs no notification; it surfaces a port read
failure unchanged; it returns `false` when the store holds no record for
the key, and for a stored record it returns exactly the record's `active`
flag, so it returns `true` exactly when the stored record has
`active = true`. -/
theorem C9_isActive {σ α ε : Type} (cfg : ISubscriptionManagerConfig σ α ε)
    (st : MgrState σ) :
    (isActive cfg st).2.1 = ([] : List (Event α)) ∧
    (∀ e, (cfg.storage.get st.store cfg.storageKey).1 = .error e →
      (isActive cfg st).1 = .error e) ∧
    ((cfg.storage.get st.store cfg.storageKey).1 = .ok none →
      (isActive cfg st).1 = .ok false) ∧
    (∀ r, (cfg.storage.get st.store cfg.storageKey).1 = .ok (some r) →
      (isActive cfg st).1 = .ok r.active ∧
      ((isActive cfg st).1 = .ok true ↔ r.active = true)) := by
  refine ⟨?_, ?_, ?_, ?_⟩
  · cases h : (cfg.storage.get st.store cfg.storageKey).1 with
    | error e => simp [isActive, getSubscription, h]
    | ok v => cases v <;> simp [isActive, getSubscription, h]
  · intro e h
    simp [isActive, getSubscription, h]
  · intro h
    simp [isActive, getSubscription, h]
  · intro r h
    refine ⟨by simp [isActive, getSubscription, h], ?_⟩
    simp [isActive, getSubscription, h]

/-- C9, witness: on the empty in-memory store (nothing ever set) `isActive`
returns `false`, and for a stored inactive record it returns `false` while
for an active one it returns `true`. -/
theorem C9_isActive_witness :
    (isActive ((⟨memStorage Unit String, "k", none⟩ :
        ISubscriptionManagerConfig (List (String × Subscription Unit)) Unit String))
        { store := [], listeners := [] }).1 = .ok false ∧
    (isActive ((⟨memStorage Unit String, "k", none⟩ :
        ISubscriptionManagerConfig (List (String × Subscription Unit)) Unit String))
        { store := [("k", { active := false, updatedAt := "t", rest := () })],
          listeners := [] }).1 = .ok false ∧
    (isActive ((⟨memStorage Unit String, "k", none⟩ :
        ISubscriptionManagerConfig (List (String × Subscription Unit)) Unit String))
        { store := [("k", { active := true, updatedAt := "t", rest := () })],
          listeners := [] }).1 = .ok true :=
  ⟨(C9_isActive _ _).2.2.1 rfl,
   ((C9_isActive _ _).2.2.2 { active := false, updatedAt := "t", rest := () } rfl).1,
   ((C9_isActive _ _).2.2.2 { active := true, updatedAt := "t", rest := () } rfl).1⟩

/-- C5: on every successful mutation, when no listener invoked in the pass
mutates the registry, the configured change callback (when present) is
invoked first and then every currently-registered listener, all with the
same value — the record as written for `setSubscription` and the absent
marker for `clearSubscription` — and, the registered listeners being
distinct, each is invoked exactly once per mutation. -/
theorem C5_notification_fanout {σ α ε : Type} [DecidableEq α]
    (cfg : ISubscriptionManagerConfig σ α ε) (env : Nat → List RegOp)
    (fuel : Nat) (now : String) (st : MgrState σ) (sub : Subscription α)
    (hpure : ∀ e, some e ∈ st.listeners → env e = [])
    (hfuel : st.listeners.length ≤ fuel)
    (hnodup : (registered st.listeners).Nodup) :
    (∀ s₂, cfg.storage.set st.store cfg.storageKey (toStoreOf sub now) = (.ok (), s₂) →
      (cfg.onChange = none →
        (setSubscription cfg env fuel now st sub).2.1 =
          (registered st.listeners).map
            (fun l => Event.listenerCall l (some (toStoreOf sub now)))) ∧
      (∀ cb, cfg.onChange = some cb → cb (some (toStoreOf sub now)) = .ok () →
        (setSubscription cfg env fuel now st sub).2.1 =
          Event.onChangeCall (some (toStoreOf sub now)) ::
            (registered st.listeners).map
              (fun l => Event.listenerCall l (some (toStoreOf sub now))))) ∧
    (∀ s₂, cfg.storage.remove st.store cfg.storageKey = (.ok (), s₂) →
      (cfg.onChange = none →
        (clearSubscription cfg env fuel st).2.1 =
          (registered st.listeners).map (fun l => Event.listenerCall l none)) ∧
      (∀ cb, cfg.onChange = some cb → cb none = .ok () →
        (clearSubscription cfg env fuel st).2.1 =
          Event.onChangeCall none ::
            (registered st.listeners).map (fun l => Event.listenerCall l none))) ∧
    (∀ (v : Option (Subscription α)) l, l ∈ registered st.listeners →
      ((registered st.listeners).map (fun x => Event.listenerCall x v)).count
        (Event.listenerCall l v) = 1) := by
  refine ⟨?_, ?_, ?_⟩
  · intro s₂ h
    constructor
    · intro hcb
      have hn := notify_pure_none cfg env fuel { st with store := s₂ }
        (some (toStoreOf sub now)) hcb hpure hfuel
      simp [setSubscription, h, hn]
    · intro cb hcb hok
      have hn := notify_pure_some cfg env fuel { st with store := s₂ }
        (some (toStoreOf sub now)) cb hcb hok hpure hfuel
      simp [setSubscription, h, hn]
  · intro s₂ h
    constructor
    · intro hcb
      have hn := notify_pure_none cfg env fuel { st with store := s₂ }
        none hcb hpure hfuel
      simp [clearSubscription, h, hn]
    · intro cb hcb hok
      have hn := notify_pure_some cfg env fuel { st with store := s₂ }
        none cb hcb hok hpure hfuel
      simp [clearSubscription, h, hn]
  · intro v l hl
    rw [count_listenerCall_map]
    exact List.count_eq_one_of_mem hnodup hl

/-- C5, witness: a successful set and a successful clear against the
in-memory storage with an `onChange` callback and two registered listeners
produce the callback event first, then one event per listener, with the
written record resp. the absent marker. -/
theorem C5_notification_fanout_witness :
    ((setSubscription ((⟨memStorage Unit String, "k",
          some (fun _ => .ok ())⟩ :
        ISubscriptionManagerConfig (List (String × Subscription Unit)) Unit String))
        (fun _ => []) 2 "t" { store := [], listeners := [some 1, some 2] }
        { active := true, updatedAt := "", rest := () }).2.1 =
      Event.onChangeCall (some (toStoreOf { active := true, updatedAt := "", rest := () } "t")) ::
        (registered [some 1, some 2]).map
          (fun l => Event.listenerCall l
            (some (toStoreOf { active := true, updatedAt := "", rest := () } "t")))) ∧
    ((clearSubscription ((⟨memStorage Unit String, "k",
          some (fun _ => .ok ())⟩ :
        ISubscriptionManagerConfig (List (String × Subscription Unit)) Unit String))
        (fun _ => []) 2 { store := [], listeners := [some 1, some 2] }).2.1 =
      Event.onChangeCall none ::
        (registered [some 1, some 2]).map (fun l => Event.listenerCall l none)) :=
  ⟨((C5_notification_fanout _ (fun _ => []) 2 "t"
      { store := [], listeners := [some 1, some 2] }
      { active := true, updatedAt := "", rest := () }
      (fun _ _ => rfl) (by decide) (by decide)).1
      [("k", toStoreOf { active := true, updatedAt := "", rest := () } "t")] rfl).2
      (fun _ => .ok ()) rfl rfl,
   ((C5_notification_fanout _ (fun _ => []) 2 "t"
      { store := [], listeners := [some 1, some 2] }
      { active := true, updatedAt := "", rest := () }
      (fun _ _ => rfl) (by decide) (by decide)).2.1
      [] rfl).2 (fun _ => .ok ()) rfl rfl⟩

/-- C8: `setSubscription` carries every field other than `updatedAt`
through unchanged into the record written to storage and delivered to
observers: the stored record's `active` and opaque extension fields equal
the caller's, the record a subsequent `getSubscription` observes is exactly
that record, and each listener receives exactly that record. -/
theorem C8_field_passthrough {α ε : Type} (k now : String)
    (env : Nat → List RegOp) (fuel : Nat)
    (st : MgrState (List (String × Subscription α))) (sub : Subscription α)
    (hpure : ∀ e, some e ∈ st.listeners → env e = [])
    (hfuel : st.listeners.length ≤ fuel) :
    (toStoreOf sub now).active = sub.active ∧
    (toStoreOf sub now).rest = sub.rest ∧
    (getSubscription ((⟨memStorage α ε, k, none⟩ :
        ISubscriptionManagerConfig (List (String × Subscription α)) α ε))
        (setSubscription ((⟨memStorage α ε, k, none⟩ :
            ISubscriptionManagerConfig (List (String × Subscription α)) α ε))
            env fuel now st sub).2.2).1 = .ok (some (toStoreOf sub now)) ∧
    (setSubscription ((⟨memStorage α ε, k, none⟩ :
        ISubscriptionManagerConfig (List (String × Subscription α)) α ε))
        env fuel now st sub).2.1 =
      (registered st.listeners).map
        (fun l => Event.listenerCall l (some (toStoreOf sub now))) := by
  refine ⟨rfl, rfl, ?_, ?_⟩
  · simp [setSubscription, memStorage, notify, getSubscription]
  · exact setSubscription_events_none _ env fuel now st sub _ rfl rfl hpure hfuel

/-- C8, witness: a record with an extension field set through the manager
keeps `active` and the extension field unchanged, is observed unchanged by
`getSubscription`, and is delivered unchanged to the registered listener. -/
theorem C8_field_passthrough_witness :
    (toStoreOf ({ active := true, updatedAt := "", rest := 42 } : Subscription Nat)
        "t").active = true ∧
    (toStoreOf ({ active := true, updatedAt := "", rest := 42 } : Subscription Nat)
        "t").rest = 42 ∧
    (getSubscription ((⟨memStorage Nat Unit, "k", none⟩ :
        ISubscriptionManagerConfig (List (String × Subscription Nat)) Nat Unit))
        (setSubscription ((⟨memStorage Nat Unit, "k", none⟩ :
            ISubscriptionManagerConfig (List (String × Subscription Nat)) Nat Unit))
            (fun _ => []) 1 "t" { store := [], listeners := [some 7] }
            { active := true, updatedAt := "", rest := 42 }).2.2).1 =
      .ok (some (toStoreOf { active := true, updatedAt := "", rest := 42 } "t")) ∧
    (setSubscription ((⟨memStorage Nat Unit, "k", none⟩ :
        ISubscriptionManagerConfig (List (String × Subscription Nat)) Nat Unit))
        (fun _ => []) 1 "t" { store := [], listeners := [some 7] }
        { active := true, updatedAt := "", rest := 42 }).2.1 =
      (registered [some 7]).map
        (fun l => Event.listenerCall l
          (some (toStoreOf { active := true, updatedAt := "", rest := 42 } "t"))) :=
  C8_field_passthrough "k" "t" (fun _ => []) 1
    { store := [], listeners := [some 7] }
    { active := true, updatedAt := "", rest := 42 }
    (fun _ _ => rfl) (by decide)

/-- C10: when the configured `onChange` callback throws during a successful
write or remove, the operation rejects with the callback's error, no
listener is notified for that mutation, and the persisted state already
reflects the mutation: a subsequent `getSubscription` observes the written
record (for set) resp. the absent marker (for clear). -/
theorem C10_onChange_throw {α ε : Type} (k now : String)
    (env : Nat → List RegOp) (fuel : Nat)
    (st : MgrState (List (String × Subscription α))) (sub : Subscription α)
    (cb : Option (Subscription α) → Except ε Unit) (e e' : ε)
    (hset : cb (some (toStoreOf sub now)) = .error e)
    (hclear : cb none = .error e') :
    (setSubscription ((⟨memStorage α ε, k, some cb⟩ :
        ISubscriptionManagerConfig (List (String × Subscription α)) α ε))
        env fuel now st sub).1 = .error e ∧
    (setSubscription ((⟨memStorage α ε, k, some cb⟩ :
        ISubscriptionManagerConfig (List (String × Subscription α)) α ε))
        env fuel now st sub).2.1 =
      [Event.onChangeCall (some (toStoreOf sub now))] ∧
    (getSubscription ((⟨memStorage α ε, k, some cb⟩ :
        ISubscriptionManagerConfig (List (String × Subscription α)) α ε))
        (setSubscription ((⟨memStorage α ε, k, some cb⟩ :
            ISubscriptionManagerConfig (List (String × Subscription α)) α ε))
            env fuel now st sub).2.2).1 = .ok (some (toStoreOf sub now)) ∧
    (clearSubscription ((⟨memStorage α ε, k, some cb⟩ :
        ISubscriptionManagerConfig (List (String × Subscription α)) α ε))
        env fuel st).1 = .error e' ∧
    (clearSubscription ((⟨memStorage α ε, k, some cb⟩ :
        ISubscriptionManagerConfig (List (String × Subscription α)) α ε))
        env fuel st).2.1 = [Event.onChangeCall none] ∧
    (getSubscription ((⟨memStorage α ε, k, some cb⟩ :
        ISubscriptionManagerConfig (List (String × Subscription α)) α ε))
        (clearSubscription ((⟨memStorage α ε, k, some cb⟩ :
            ISubscriptionManagerConfig (List (String × Subscription α)) α ε))
            env fuel st).2.2).1 = .ok none := by
  refine ⟨?_, ?_, ?_, ?_, ?_, ?_⟩
  · simp [setSubscription, memStorage, notify, hset]
  · simp [setSubscription, memStorage, notify, hset]
  · simp [setSubscription, memStorage, notify, hset, getSubscription]
  · simp [clearSubscription, memStorage, notify, hclear]
  · simp [clearSubscription, memStorage, notify, hclear]
  · simp [clearSubscription, memStorage, notify, hclear, getSubscription,
      lookup_filter_self]
    exact fun a b _ hak hka => hak hka.symm

/-- C10, witness: a callback that always throws makes set and clear reject
with its error while the mutation is already persisted and no listener was
notified. -/
theorem C10_onChange_throw_witness :
    (setSubscription ((⟨memStorage Unit String, "k",
          some (fun _ => .error "boom")⟩ :
        ISubscriptionManagerConfig (List (String × Subscription Unit)) Unit String))
        (fun _ => []) 1 "t" { store := [], listeners := [some 1] }
        { active := true, updatedAt := "", rest := () }).1 = .error "boom" ∧
    (setSubscription ((⟨memStorage Unit String, "k",
          some (fun _ => .error "boom")⟩ :
        ISubscriptionManagerConfig (List (String × Subscription Unit)) Unit String))
        (fun _ => []) 1 "t" { store := [], listeners := [some 1] }
        { active := true, updatedAt := "", rest := () }).2.1 =
      [Event.onChangeCall (some (toStoreOf { active := true, updatedAt := "", rest := () } "t"))] ∧
    (getSubscription ((⟨memStorage Unit String, "k",
          some (fun _ => .error "boom")⟩ :
        ISubscriptionManagerConfig (List (String × Subscription Unit)) Unit String))
        (setSubscription ((⟨memStorage Unit String, "k",
              some (fun _ => .error "boom")⟩ :
            ISubscriptionManagerConfig (List (String × Subscription Unit)) Unit String))
            (fun _ => []) 1 "t" { store := [], listeners := [some 1] }
            { active := true, updatedAt := "", rest := () }).2.2).1 =
      .ok (some (toStoreOf { active := true, updatedAt := "", rest := () } "t")) ∧
    (clearSubscription ((⟨memStorage Unit String, "k",
          some (fun _ => .error "boom")⟩ :
        ISubscriptionManagerConfig (List (String × Subscription Unit)) Unit String))
        (fun _ => []) 1 { store := [], listeners := [some 1] }).1 = .error "boom" ∧
    (clearSubscription ((⟨memStorage Unit String, "k",
          some (fun _ => .error "boom")⟩ :
        ISubscriptionManagerConfig (List (String × Subscription Unit)) Unit String))
        (fun _ => []) 1 { store := [], listeners := [some 1] }).2.1 =
      [Event.onChangeCall none] ∧
    (getSubscription ((⟨memStorage Unit String, "k",
          some (fun _ => .error "boom")⟩ :
        ISubscriptionManagerConfig (List (String × Subscription Unit)) Unit String))
        (clearSubscription ((⟨memStorage Unit String, "k",
              some (fun _ => .error "boom")⟩ :
            ISubscriptionManagerConfig (List (String × Subscription Unit)) Unit String))
            (fun _ => []) 1 { store := [], listeners := [some 1] }).2.2).1 = .ok none :=
  C10_onChange_throw "k" "t" (fun _ => []) 1
    { store := [], listeners := [some 1] }
    { active := true, updatedAt := "", rest := () }
    (fun _ => .error "boom") "boom" "boom" rfl rfl

/-- C6: the unsubscribe closure returned by `subscribe` removes exactly its
captured listener from the observer set: the listener is no longer
registered while every other listener's registration is untouched; calling
the closure again is a no-op on the manager state; and on a subsequent
successful mutation the removed listener receives no notification while
every other still-registered listener is still notified. -/
theorem C6_unsubscribe_exact {α ε : Type} (k now : String)
    (env : Nat → List RegOp) (fuel : Nat)
    (store0 : List (String × Subscription α)) (ls : List (Option Nat)) (l : Nat)
    (sub : Subscription α)
    (hnodup : (registered ls).Nodup)
    (hpure : ∀ e, some e ∈ ls → env e = [])
    (hfuel : ls.length ≤ fuel) :
    (l ∉ registered (unsubscribe (⟨store0, ls⟩ :
        MgrState (List (String × Subscription α))) l).listeners ∧
     (∀ x, x ≠ l →
       (x ∈ registered (unsubscribe (⟨store0, ls⟩ :
           MgrState (List (String × Subscription α))) l).listeners ↔
        x ∈ registered ls))) ∧
    unsubscribe (unsubscribe (⟨store0, ls⟩ :
        MgrState (List (String × Subscription α))) l) l =
      unsubscribe (⟨store0, ls⟩ : MgrState (List (String × Subscription α))) l ∧
    Event.listenerCall l (some (toStoreOf sub now)) ∉
      (setSubscription ((⟨memStorage α ε, k, none⟩ :
          ISubscriptionManagerConfig (List (String × Subscription α)) α ε))
          env fuel now
          (unsubscribe (⟨store0, ls⟩ : MgrState (List (String × Subscription α))) l)
          sub).2.1 ∧
    (∀ x, x ∈ registered ls → x ≠ l →
      Event.listenerCall x (some (toStoreOf sub now)) ∈
        (setSubscription ((⟨memStorage α ε, k, none⟩ :
            ISubscriptionManagerConfig (List (String × Subscription α)) α ε))
            env fuel now
            (unsubscribe (⟨store0, ls⟩ : MgrState (List (String × Subscription α))) l)
            sub).2.1) := by
  have hreg : registered (setDelete ls l) = (registered ls).erase l :=
    registered_setDelete ls l
  have hnotmem : l ∉ registered (setDelete ls l) := by
    rw [hreg]
    intro hc
    exact (hnodup.mem_erase_iff.mp hc).1 rfl
  have hpure' : ∀ e, some e ∈ setDelete ls l → env e = [] := by
    intro e he
    have h1 : e ∈ registered (setDelete ls l) := mem_registered.mpr he
    rw [hreg] at h1
    exact hpure e (mem_registered.mp (List.mem_of_mem_erase h1))
  have hfuel' : (setDelete ls l).length ≤ fuel := by
    rw [length_setDelete]
    exact hfuel
  have hev : (setSubscription ((⟨memStorage α ε, k, none⟩ :
      ISubscriptionManagerConfig (List (String × Subscription α)) α ε))
      env fuel now
      (⟨store0, setDelete ls l⟩ : MgrState (List (String × Subscription α)))
      sub).2.1 =
      (registered (setDelete ls l)).map
        (fun x => Event.listenerCall x (some (toStoreOf sub now))) :=
    setSubscription_events_none _ env fuel now _ sub _ rfl rfl hpure' hfuel'
  refine ⟨⟨hnotmem, ?_⟩, ?_, ?_, ?_⟩
  · intro x hx
    show x ∈ registered (setDelete ls l) ↔ x ∈ registered ls
    rw [hreg, hnodup.mem_erase_iff]
    simp [hx]
  · simp [unsubscribe, setDelete_idem hnodup]
  · show Event.listenerCall l (some (toStoreOf sub now)) ∉
      (setSubscription _ env fuel now
        (⟨store0, setDelete ls l⟩ : MgrState (List (String × Subscription α))) sub).2.1
    rw [hev]
    intro hc
    obtain ⟨x, hx, hxe⟩ := List.mem_map.mp hc
    have : x = l := by simpa [Event.listenerCall.injEq] using hxe
    exact hnotmem (this ▸ hx)
  · intro x hx hxl
    show Event.listenerCall x (some (toStoreOf sub now)) ∈
      (setSubscription _ env fuel now
        (⟨store0, setDelete ls l⟩ : MgrState (List (String × Subscription α))) sub).2.1
    rw [hev]
    have hmem : x ∈ registered (setDelete ls l) := by
      rw [hreg]
      exact hnodup.mem_erase_iff.mpr ⟨hxl, hx⟩
    exact List.mem_map.mpr ⟨x, hmem, rfl⟩

/-- C6, witness: with listeners 1 and 2 registered, unsubscribing 2 leaves
only 1, repeating the unsubscribe changes nothing, and a subsequent set
notifies 1 but not 2. -/
theorem C6_unsubscribe_exact_witness :
    (2 ∉ registered (unsubscribe (⟨[], [some 1, some 2]⟩ :
        MgrState (List (String × Subscription Unit))) 2).listeners ∧
     (∀ x, x ≠ 2 →
       (x ∈ registered (unsubscribe (⟨[], [some 1, some 2]⟩ :
           MgrState (List (String × Subscription Unit))) 2).listeners ↔
        x ∈ registered [some 1, some 2]))) ∧
    unsubscribe (unsubscribe (⟨[], [some 1, some 2]⟩ :
        MgrState (List (String × Subscription Unit))) 2) 2 =
      unsubscribe (⟨[], [some 1, some 2]⟩ :
        MgrState (List (String × Subscription Unit))) 2 ∧
    Event.listenerCall 2
        (some (toStoreOf ({ active := true, updatedAt := "", rest := () } :
          Subscription Unit) "t")) ∉
      (setSubscription ((⟨memStorage Unit Unit, "k", none⟩ :
          ISubscriptionManagerConfig (List (String × Subscription Unit)) Unit Unit))
          (fun _ => []) 2 "t"
          (unsubscribe (⟨[], [some 1, some 2]⟩ :
            MgrState (List (String × Subscription Unit))) 2)
          { active := true, updatedAt := "", rest := () }).2.1 ∧
    (∀ x, x ∈ registered [some 1, some 2] → x ≠ 2 →
      Event.listenerCall x
          (some (toStoreOf ({ active := true, updatedAt := "", rest := () } :
            Subscription Unit) "t")) ∈
        (setSubscription ((⟨memStorage Unit Unit, "k", none⟩ :
            ISubscriptionManagerConfig (List (String × Subscription Unit)) Unit Unit))
            (fun _ => []) 2 "t"
            (unsubscribe (⟨[], [some 1, some 2]⟩ :
              MgrState (List (String × Subscription Unit))) 2)
            { active := true, updatedAt := "", rest := () }).2.1) :=
  C6_unsubscribe_exact "k" "t" (fun _ => []) 2 [] [some 1, some 2] 2
    { active := true, updatedAt := "", rest := () }
    (by decide) (fun _ _ => rfl) (by decide)

/-- C7: the observer registry has set semantics over listener references:
subscribing the same reference twice leaves the manager state identical to
subscribing it once, and that listener is invoked exactly once per
mutation; subscribing two distinct references — even with identical
behaviour — registers both, and each is invoked exactly once per
mutation. -/
theorem C7_reference_set_semantics {α ε : Type} [DecidableEq α]
    (k now : String) (fuel : Nat)
    (store0 : List (String × Subscription α)) (ls : List (Option Nat))
    (l₁ l₂ : Nat) (sub : Subscription α)
    (h12 : l₁ ≠ l₂) (h1 : some l₁ ∉ ls) (h2 : some l₂ ∉ ls)
    (hnodup : (registered ls).Nodup) (hfuel : ls.length + 2 ≤ fuel) :
    subscribe (subscribe (⟨store0, ls⟩ :
        MgrState (List (String × Subscription α))) l₁) l₁ =
      subscribe (⟨store0, ls⟩ : MgrState (List (String × Subscription α))) l₁ ∧
    ((setSubscription ((⟨memStorage α ε, k, none⟩ :
        ISubscriptionManagerConfig (List (String × Subscription α)) α ε))
        (fun _ => []) fuel now
        (subscribe (subscribe (⟨store0, ls⟩ :
          MgrState (List (String × Subscription α))) l₁) l₁) sub).2.1).count
      (Event.listenerCall l₁ (some (toStoreOf sub now))) = 1 ∧
    l₁ ∈ registered (subscribe (subscribe (⟨store0, ls⟩ :
        MgrState (List (String × Subscription α))) l₁) l₂).listeners ∧
    l₂ ∈ registered (subscribe (subscribe (⟨store0, ls⟩ :
        MgrState (List (String × Subscription α))) l₁) l₂).listeners ∧
    ((setSubscription ((⟨memStorage α ε, k, none⟩ :
        ISubscriptionManagerConfig (List (String × Subscription α)) α ε))
        (fun _ => []) fuel now
        (subscribe (subscribe (⟨store0, ls⟩ :
          MgrState (List (String × Subscription α))) l₁) l₂) sub).2.1).count
      (Event.listenerCall l₁ (some (toStoreOf sub now))) = 1 ∧
    ((setSubscription ((⟨memStorage α ε, k, none⟩ :
        ISubscriptionManagerConfig (List (String × Subscription α)) α ε))
        (fun _ => []) fuel now
        (subscribe (subscribe (⟨store0, ls⟩ :
          MgrState (List (String × Subscription α))) l₁) l₂) sub).2.1).count
      (Event.listenerCall l₂ (some (toStoreOf sub now))) = 1 := by
  have hl2r : l₂ ∉ registered ls := fun hc => h2 (mem_registered.mp hc)
  have hadd1 : registered (setAdd ls l₁) = registered ls ++ [l₁] := by
    rw [registered_setAdd]
    simp [h1]
  have hnd1 : (registered (setAdd ls l₁)).Nodup := nodup_registered_setAdd _ hnodup
  have h2' : some l₂ ∉ setAdd ls l₁ := by
    intro hc
    have hm : l₂ ∈ registered (setAdd ls l₁) := mem_registered.mpr hc
    rw [hadd1] at hm
    rcases List.mem_append.mp hm with hm | hm
    · exact hl2r hm
    · simp at hm
      exact h12 hm.symm
  have hadd2 : registered (setAdd (setAdd ls l₁) l₂) =
      (registered ls ++ [l₁]) ++ [l₂] := by
    rw [registered_setAdd]
    simp [h2', hadd1]
  have hnd2 : (registered (setAdd (setAdd ls l₁) l₂)).Nodup :=
    nodup_registered_setAdd _ hnd1
  have hfuel1 : (setAdd ls l₁).length ≤ fuel :=
    le_trans (length_setAdd_le ls l₁) (by omega)
  have hfuel2 : (setAdd (setAdd ls l₁) l₂).length ≤ fuel := by
    have ha := length_setAdd_le ls l₁
    have hb := length_setAdd_le (setAdd ls l₁) l₂
    omega
  have hev1 : (setSubscription ((⟨memStorage α ε, k, none⟩ :
      ISubscriptionManagerConfig (List (String × Subscription α)) α ε))
      (fun _ => []) fuel now
      (⟨store0, setAdd ls l₁⟩ : MgrState (List (String × Subscription α)))
      sub).2.1 =
      (registered (setAdd ls l₁)).map
        (fun x => Event.listenerCall x (some (toStoreOf sub now))) :=
    setSubscription_events_none _ _ fuel now _ sub _ rfl rfl (fun _ _ => rfl) hfuel1
  have hev2 : (setSubscription ((⟨memStorage α ε, k, none⟩ :
      ISubscriptionManagerConfig (List (String × Subscription α)) α ε))
      (fun _ => []) fuel now
      (⟨store0, setAdd (setAdd ls l₁) l₂⟩ : MgrState (List (String × Subscription α)))
      sub).2.1 =
      (registered (setAdd (setAdd ls l₁) l₂)).map
        (fun x => Event.listenerCall x (some (toStoreOf sub now))) :=
    setSubscription_events_none _ _ fuel now _ sub _ rfl rfl (fun _ _ => rfl) hfuel2
  have hcollapse : subscribe (subscribe (⟨store0, ls⟩ :
      MgrState (List (String × Subscription α))) l₁) l₁ =
      (⟨store0, setAdd ls l₁⟩ : MgrState (List (String × Subscription α))) := by
    simp [subscribe, setAdd_setAdd]
  refine ⟨hcollapse, ?_, ?_, ?_, ?_, ?_⟩
  · rw [hcollapse, hev1, count_listenerCall_map]
    refine List.count_eq_one_of_mem hnd1 ?_
    rw [hadd1]
    simp
  · show l₁ ∈ registered (setAdd (setAdd ls l₁) l₂)
    rw [hadd2]
    simp
  · show l₂ ∈ registered (setAdd (setAdd ls l₁) l₂)
    rw [hadd2]
    simp
  · show ((setSubscription _ (fun _ => []) fuel now
      (⟨store0, setAdd (setAdd ls l₁) l₂⟩ :
        MgrState (List (String × Subscription α))) sub).2.1).count
      (Event.listenerCall l₁ (some (toStoreOf sub now))) = 1
    rw [hev2, count_listenerCall_map]
    refine List.count_eq_one_of_mem hnd2 ?_
    rw [hadd2]
    simp
  · show ((setSubscription _ (fun _ => []) fuel now
      (⟨store0, setAdd (setAdd ls l₁) l₂⟩ :
        MgrState (List (String × Subscription α))) sub).2.1).count
      (Event.listenerCall l₂ (some (toStoreOf sub now))) = 1
    rw [hev2, count_listenerCall_map]
    refine List.count_eq_one_of_mem hnd2 ?_
    rw [hadd2]
    simp

/-- C7, witness: from an empty registry, subscribing listener 1 twice
equals subscribing it once and it is invoked exactly once per mutation;
subscribing distinct listeners 1 and 2 registers both and each is invoked
exactly once. -/
theorem C7_reference_set_semantics_witness :
    subscribe (subscribe (⟨[], []⟩ :
        MgrState (List (String × Subscription Unit))) 1) 1 =
      subscribe (⟨[], []⟩ : MgrState (List (String × Subscription Unit))) 1 ∧
    ((setSubscription ((⟨memStorage Unit Unit, "k", none⟩ :
        ISubscriptionManagerConfig (List (String × Subscription Unit)) Unit Unit))
        (fun _ => []) 2 "t"
        (subscribe (subscribe (⟨[], []⟩ :
          MgrState (List (String × Subscription Unit))) 1) 1)
        { active := true, updatedAt := "", rest := () }).2.1).count
      (Event.listenerCall 1
        (some (toStoreOf { active := true, updatedAt := "", rest := () } "t"))) = 1 ∧
    1 ∈ registered (subscribe (subscribe (⟨[], []⟩ :
        MgrState (List (String × Subscription Unit))) 1) 2).listeners ∧
    2 ∈ registered (subscribe (subscribe (⟨[], []⟩ :
        MgrState (List (String × Subscription Unit))) 1) 2).listeners ∧
    ((setSubscription ((⟨memStorage Unit Unit, "k", none⟩ :
        ISubscriptionManagerConfig (List (String × Subscription Unit)) Unit Unit))
        (fun _ => []) 2 "t"
        (subscribe (subscribe (⟨[], []⟩ :
          MgrState (List (String × Subscription Unit))) 1) 2)
        { active := true, updatedAt := "", rest := () }).2.1).count
      (Event.listenerCall 1
        (some (toStoreOf { active := true, updatedAt := "", rest := () } "t"))) = 1 ∧
    ((setSubscription ((⟨memStorage Unit Unit, "k", none⟩ :
        ISubscriptionManagerConfig (List (String × Subscription Unit)) Unit Unit))
        (fun _ => []) 2 "t"
        (subscribe (subscribe (⟨[], []⟩ :
          MgrState (List (String × Subscription Unit))) 1) 2)
        { active := true, updatedAt := "", rest := () }).2.1).count
      (Event.listenerCall 2
        (some (toStoreOf { active := true, updatedAt := "", rest := () } "t"))) = 1 :=
  C7_reference_set_semantics "k" "t" 2 [] [] 1 2
    { active := true, updatedAt := "", rest := () }
    (by decide) (by decide) (by decide) (by decide) (by decide)

end SubMgr
